import Mathlib

/-!
Verification of the test/assessment module of the EdifyMinds LMS.

The development embeds, as executable Lean definitions, the client-side
test-taking component (frontend TakeTest.js: timer, answer recording,
navigation, submission), the result review component (TestResult), the
results list (MyTestResults), the teacher submissions dialog
(TestSubmissionsDialog), and the server-side test delivery, scoring and
question parsing operations (modelled from the specification where the
backend file is not part of the repository snapshot).
-/

/-- A structured question as stored in a Test: question text, ordered
options, and the correct answer letter. -/
structure Question where
  question : String
  options : List String
  correct_answer : String
deriving DecidableEq, Repr

/-- A Test entity: metadata plus the ordered question list. -/
structure Test where
  title : String
  description : String
  duration_minutes : Nat
  questions : List Question
deriving DecidableEq, Repr

/-- One answer entry of a submission payload, as sent by the client and
stored in a Submission. -/
structure Answer where
  question_index : Nat
  selected_answer : String
deriving DecidableEq, Repr

/-- A Submission record: score, question-count snapshot, and the answer
entries. -/
structure Submission where
  score : Nat
  total_questions : Nat
  answers : List Answer
deriving DecidableEq, Repr

/-- The option letters used by the client views (TakeTest.js line 146 and
TestResult line 166). -/
def optionLetters : List String := ["A", "B", "C", "D", "E", "F"]

/-! ## Client state of the TakeTest component

TakeTest.js holds component state currentQuestionIndex, answers (an object
keyed by question index), timeLeft (seconds), submitting, and
submitDialogOpen. submitCount instruments how many POST tests submit
network calls have been issued. -/

/-- The component state of TakeTest.js. -/
structure TakeTestState where
  currentQuestionIndex : Nat
  answers : List (Nat × String)
  timeLeft : Int
  submitting : Bool
  submitDialogOpen : Bool
  submitCount : Nat
deriving DecidableEq, Repr

/-- fetchTest seeds timeLeft with duration_minutes * 60 (TakeTest.js
line 59). -/
def seedTimeLeft (duration_minutes : Nat) : Int :=
  (duration_minutes : Int) * 60

/-- The initial component state right after a successful fetchTest for a
test of the given duration. -/
def initState (duration_minutes : Nat) : TakeTestState :=
  { currentQuestionIndex := 0
    answers := []
    timeLeft := seedTimeLeft duration_minutes
    submitting := false
    submitDialogOpen := false
    submitCount := 0 }

/-- submitTest (TakeTest.js lines 74 to 94): sets submitting and issues the
POST tests submit call; submitCount counts the issued calls. -/
def submitTestCall (s : TakeTestState) : TakeTestState :=
  { s with submitting := true, submitCount := s.submitCount + 1 }

/-- handleAutoSubmit (TakeTest.js lines 68 to 72): returns early when a
submit is already in flight, otherwise runs submitTest. -/
def handleAutoSubmit (s : TakeTestState) : TakeTestState :=
  if s.submitting then s else submitTestCall s

/-- One timer tick. The interval only exists while timeLeft is positive
(the effect at line 39 returns when timeLeft is not positive); the updater
(lines 42 to 49) maps prev to 0 and fires handleAutoSubmit when prev is at
most 1, and to prev - 1 otherwise. -/
def tickStep (s : TakeTestState) : TakeTestState :=
  if s.timeLeft ≤ 0 then s
  else if s.timeLeft ≤ 1 then { handleAutoSubmit s with timeLeft := 0 }
  else { s with timeLeft := s.timeLeft - 1 }

/-- handleSubmitClick (line 96): opens the confirmation dialog. The Submit
Test button is rendered with disabled submitting (line 261), so the click
is a no-op while a submit is in flight. -/
def handleSubmitClick (s : TakeTestState) : TakeTestState :=
  if s.submitting then s else { s with submitDialogOpen := true }

/-- handleConfirmSubmit (lines 100 to 103): closes the dialog and calls
submitTest unconditionally. The click is only possible while the dialog is
open. -/
def handleConfirmSubmit (s : TakeTestState) : TakeTestState :=
  if s.submitDialogOpen then
    submitTestCall { s with submitDialogOpen := false }
  else s

/-- Cancel in the confirmation dialog: closes it. -/
def handleCancelSubmit (s : TakeTestState) : TakeTestState :=
  { s with submitDialogOpen := false }

/-- The JS object spread in handleAnswerChange (lines 106 to 109):
overwrite the value when the key exists, otherwise add the entry. -/
def setAnswer (ans : List (Nat × String)) (idx : Nat) (v : String) :
    List (Nat × String) :=
  if ans.any (fun p => p.1 == idx) then
    ans.map (fun p => if p.1 == idx then (idx, v) else p)
  else ans ++ [(idx, v)]

/-- handleAnswerChange (lines 105 to 110): records the value for the
currently displayed question index. -/
def handleAnswerChange (s : TakeTestState) (v : String) : TakeTestState :=
  { s with answers := setAnswer s.answers s.currentQuestionIndex v }

/-- handleNext (lines 112 to 116): advance the displayed question while
below the last index. -/
def handleNext (numQuestions : Nat) (s : TakeTestState) : TakeTestState :=
  if s.currentQuestionIndex < numQuestions - 1 then
    { s with currentQuestionIndex := s.currentQuestionIndex + 1 }
  else s

/-- handlePrevious (lines 118 to 122): go back while above index 0. -/
def handlePrevious (s : TakeTestState) : TakeTestState :=
  if 0 < s.currentQuestionIndex then
    { s with currentQuestionIndex := s.currentQuestionIndex - 1 }
  else s

/-- The user-interface and timer events the TakeTest component reacts to. -/
inductive TakeTestEvent where
  | tick
  | submitButtonClick
  | confirmSubmitClick
  | cancelSubmitClick
  | answerChange (value : String)
  | nextClick
  | previousClick
deriving DecidableEq, Repr

/-- One event of the single-threaded client event loop. -/
def step (numQuestions : Nat) (s : TakeTestState) :
    TakeTestEvent → TakeTestState
  | TakeTestEvent.tick => tickStep s
  | TakeTestEvent.submitButtonClick => handleSubmitClick s
  | TakeTestEvent.confirmSubmitClick => handleConfirmSubmit s
  | TakeTestEvent.cancelSubmitClick => handleCancelSubmit s
  | TakeTestEvent.answerChange v => handleAnswerChange s v
  | TakeTestEvent.nextClick => handleNext numQuestions s
  | TakeTestEvent.previousClick => handlePrevious s

/-- Run a sequence of events from a state. -/
def runEvents (numQuestions : Nat) (s : TakeTestState)
    (es : List TakeTestEvent) : TakeTestState :=
  es.foldl (step numQuestions) s

/-! ## Test delivery to students (redaction) and the TakeTest question view -/

/-- A question as delivered to a student: the payload carries only the
question text and the options, with no correct_answer field. -/
structure RedactedQuestion where
  question : String
  options : List String
deriving DecidableEq, Repr

/-- Strip the correct_answer field from a question. -/
def redactQuestion (q : Question) : RedactedQuestion :=
  { question := q.question, options := q.options }

/-- Modelled from the spec: the backend GET tests handler (server.py) is
not part of the repository snapshot. Per the spec, a student actor receives
the Test with every correct_answer removed, and this holds regardless of
prior submission state, so the handler ignores the hasSubmitted flag. -/
def getTestStudent (t : Test) (_hasSubmitted : Bool) : List RedactedQuestion :=
  t.questions.map redactQuestion

/-- The data the TakeTest question card renders for one question
(TakeTest.js lines 186 to 230): the question text and, for each option in
order, its display letter and its text. No other question field is read. -/
def renderTakeTestQuestion (q : Question) : String × List (String × String) :=
  (q.question, q.options.enum.map (fun p => (optionLetters.getD p.1 "", p.2)))

/-- The same rendering computed from a redacted question. -/
def renderRedactedQuestion (q : RedactedQuestion) :
    String × List (String × String) :=
  (q.question, q.options.enum.map (fun p => (optionLetters.getD p.1 "", p.2)))

/-! ## Scoring (spec-modelled) and the TestResult review page -/

/-- Modelled from the spec: the backend scoring in server.py (POST tests
submit) is not part of the repository snapshot. Per the spec, for each
entry in answers the selected_answer is compared case-insensitively
against the corresponding Question correct_answer and score is incremented
for each match; entries are the only source of credit, so a question with
no entry is never counted. -/
def scoreSubmission (questions : List Question) (answers : List Answer) :
    Nat :=
  answers.foldl
    (fun sc a =>
      match questions.get? a.question_index with
      | some q =>
          if a.selected_answer.toUpper == q.correct_answer.toUpper then
            sc + 1
          else sc
      | none => sc)
    0

/-- Whether one answer entry scores a point against the question list. -/
def entryCorrect (questions : List Question) (a : Answer) : Bool :=
  match questions.get? a.question_index with
  | some q => a.selected_answer.toUpper == q.correct_answer.toUpper
  | none => false

/-- The studentAnswersMap built by TestResult (part_001 lines 169 to 172):
forEach assignment keyed by question_index, a later entry overwriting an
earlier one. Looking up an index with no entry gives none. -/
def studentAnswersMap (answers : List Answer) (i : Nat) : Option String :=
  answers.foldl
    (fun acc a => if a.question_index = i then some a.selected_answer else acc)
    none

/-- The isCorrect computation of the review page (part_001 line 235): the
optional chain on an absent answer compares undefined against a string,
which is false; otherwise the two letters are compared after toUpperCase. -/
def reviewIsCorrect (studentAnswer : Option String) (q : Question) : Bool :=
  match studentAnswer with
  | none => false
  | some a => a.toUpper == q.correct_answer.toUpper

/-- The option row highlighting comparison of the review page (part_001
lines 266 to 269): the student answer letter against an option letter,
after toUpperCase on both. -/
def reviewIsStudentAnswer (studentAnswer : Option String)
    (optionLetter : String) : Bool :=
  match studentAnswer with
  | none => false
  | some a => a.toUpper == optionLetter.toUpper

/-- The unanswered notice of the review page (part_001 lines 307 to 311):
shown exactly when the student answer for the question is absent. -/
def unansweredNotice (studentAnswer : Option String) : Bool :=
  studentAnswer.isNone

/-! ## The percentage shown by the three result views -/

/-- JavaScript Math.round: round half away from zero toward positive
infinity, that is the floor of the value plus one half. -/
def jsRound (q : ℚ) : ℤ := ⌊q + 1 / 2⌋

/-- The percentage of the student results list (MyTestResults.js line 94):
Math.round of score over total_questions times 100. -/
def myTestResultsPercentage (score total_questions : Nat) : ℤ :=
  jsRound ((score : ℚ) / (total_questions : ℚ) * 100)

/-- The percentage of the detailed result page (part_001 line 165):
Math.round of score over total_questions times 100. -/
def testResultPercentage (score total_questions : Nat) : ℤ :=
  jsRound ((score : ℚ) / (total_questions : ℚ) * 100)

/-- The percentage badge of the teacher submissions dialog (part_004
line 85): Math.round of score over total_questions times 100. -/
def testSubmissionsDialogPercentage (score total_questions : Nat) : ℤ :=
  jsRound ((score : ℚ) / (total_questions : ℚ) * 100)

/-! ## Load failure handling -/

/-- The component state of TakeTest that the load path touches. -/
structure TakeTestLoadState where
  test : Option Test
  timeLeft : Int
  loading : Bool
  toastedError : Bool
  navigatedBack : Bool
deriving DecidableEq, Repr

/-- fetchTest (TakeTest.js lines 55 to 66): on success store the test and
seed the timer; on failure toast the error and navigate back; either way
loading ends. -/
def fetchTestOutcome (r : Except Unit Test) : TakeTestLoadState :=
  match r with
  | Except.ok t =>
      { test := some t
        timeLeft := seedTimeLeft t.duration_minutes
        loading := false
        toastedError := false
        navigatedBack := false }
  | Except.error _ =>
      { test := none
        timeLeft := 0
        loading := false
        toastedError := true
        navigatedBack := true }

/-- What the TakeTest component renders from its load state. -/
inductive TakeTestRender where
  | loadingScreen
  | testNotFound
  | testScreen (title : String) (questions : List (String × List String))
deriving DecidableEq, Repr

/-- Whether a render is the test-taking screen. -/
def TakeTestRender.isTestScreen : TakeTestRender → Bool
  | TakeTestRender.testScreen _ _ => true
  | _ => false

/-- The render switch of TakeTest (lines 133 to 148): the loading screen
while loading, the not-found placeholder when no test is held, and the full
test screen otherwise. -/
def renderTakeTest (s : TakeTestLoadState) : TakeTestRender :=
  if s.loading then TakeTestRender.loadingScreen
  else
    match s.test with
    | none => TakeTestRender.testNotFound
    | some t =>
        TakeTestRender.testScreen t.title
          (t.questions.map (fun q => (q.question, q.options)))

/-- The result payload of GET tests result: the submission joined with the
full test. -/
structure ResultPayload where
  submission : Submission
  test : Test
deriving DecidableEq, Repr

/-- The component state of TestResult that the load path touches. -/
structure ResultLoadState where
  result : Option ResultPayload
  loading : Bool
  toastedError : Bool
  navigatedBack : Bool
deriving DecidableEq, Repr

/-- fetchResult (part_001 lines 140 to 150): on success store the payload;
on failure toast the error and navigate back; either way loading ends. -/
def fetchResultOutcome (r : Except Unit ResultPayload) : ResultLoadState :=
  match r with
  | Except.ok p =>
      { result := some p
        loading := false
        toastedError := false
        navigatedBack := false }
  | Except.error _ =>
      { result := none
        loading := false
        toastedError := true
        navigatedBack := true }

/-- What the TestResult component renders from its load state. -/
inductive ResultRender where
  | loadingScreen
  | resultNotFound
  | resultScreen (payload : ResultPayload)
deriving DecidableEq, Repr

/-- Whether a render is the full result review screen. -/
def ResultRender.isResultScreen : ResultRender → Bool
  | ResultRender.resultScreen _ => true
  | _ => false

/-- The render switch of TestResult (part_001 lines 152 to 162). -/
def renderTestResult (s : ResultLoadState) : ResultRender :=
  if s.loading then ResultRender.loadingScreen
  else
    match s.result with
    | none => ResultRender.resultNotFound
    | some p => ResultRender.resultScreen p

/-! ## The question parser (spec-modelled)

The backend parse_questions function of server.py is not part of the
repository snapshot; the definitions below are modelled from the spec
section 4.1: a line classifier plus block accumulator, blocks opened by a
Q line, option lines captured positionally, an ANSWER line closing the
block, and validation excluding blocks with an option count outside two to
six, a missing ANSWER line, or an ANSWER letter beyond the option count. -/

/-- Whether a character is one of the answer letters A to F, either case. -/
def isAnswerLetterChar (c : Char) : Bool :=
  (65 ≤ c.toUpper.toNat) && (c.toUpper.toNat ≤ 70)

/-- The option index named by an answer letter: A is 0 through F is 5,
case-insensitive. -/
def letterIndex (c : Char) : Nat :=
  c.toUpper.toNat - 65

/-- Modelled from the spec: a new question begins at any line whose first
character after whitespace is Q, case-insensitive. -/
def isQuestionLine (line : String) : Bool :=
  match line.toList.dropWhile Char.isWhitespace with
  | c :: _ => c == 'Q' || c == 'q'
  | [] => false

/-- Modelled from the spec: the question text of a Q line is the rest of
the line after the Q marker, optional digits and an optional separator. -/
def questionTextOf (line : String) : String :=
  match line.toList.dropWhile Char.isWhitespace with
  | _ :: rest =>
      let r1 := rest.dropWhile Char.isDigit
      let r2 :=
        match r1 with
        | c :: tl => if c == '.' || c == ')' || c == ':' then tl else r1
        | [] => r1
      (String.mk r2).trim
  | [] => ""

/-- Modelled from the spec: an option line is a letter A to F (either
case) followed by a closing parenthesis, period or colon and at least one
further character; the captured text is the remainder with leading
whitespace dropped. The letter label itself is ignored for ordering. -/
def optionLineText (line : String) : Option String :=
  match line.toList.dropWhile Char.isWhitespace with
  | c :: sep :: rest =>
      if isAnswerLetterChar c && (sep == ')' || sep == '.' || sep == ':')
          && !rest.isEmpty then
        some (String.mk (rest.dropWhile Char.isWhitespace))
      else none
  | _ => none

/-- Modelled from the spec: an ANSWER line is the word ANSWER
(case-insensitive) after optional whitespace, then optional whitespace, a
colon, optional whitespace and a letter A to F in either case. -/
def answerLineLetter (line : String) : Option Char :=
  let cs := line.toList.dropWhile Char.isWhitespace
  if (cs.take 6).map Char.toUpper == ['A', 'N', 'S', 'W', 'E', 'R'] then
    match (cs.drop 6).dropWhile Char.isWhitespace with
    | ':' :: rest =>
        match rest.dropWhile Char.isWhitespace with
        | c :: _ => if isAnswerLetterChar c then some c else none
        | [] => none
    | _ => none
  else none

/-- One question block as accumulated by the line scanner: the question
text, the option texts in order of appearance, and the ANSWER letter when
one was seen. -/
structure RawBlock where
  questionText : String
  optionLines : List String
  answer : Option Char
deriving DecidableEq, Repr

/-- The scanner state: closed blocks so far and the block being built. -/
structure ScanState where
  done : List RawBlock
  cur : Option RawBlock
deriving DecidableEq, Repr

/-- Classify one line and update the scanner state: a Q line closes the
current block and opens a new one; inside an unclosed block an ANSWER line
records the letter and terminates the block, an option line appends its
text; everything else, and every line outside a block or after the ANSWER
line, is ignored. -/
def stepLine (st : ScanState) (line : String) : ScanState :=
  if isQuestionLine line then
    { done := st.done ++ st.cur.toList
      cur := some { questionText := questionTextOf line
                    optionLines := []
                    answer := none } }
  else
    match st.cur with
    | none => st
    | some b =>
        if b.answer.isSome then st
        else
          match answerLineLetter line with
          | some c => { st with cur := some { b with answer := some c } }
          | none =>
              match optionLineText line with
              | some t =>
                  { st with
                    cur := some { b with optionLines := b.optionLines ++ [t] } }
              | none => st

/-- Split the raw text into blocks by scanning its lines. -/
def blocksOf (raw : String) : List RawBlock :=
  let st := (raw.splitOn "\n").foldl stepLine { done := [], cur := none }
  st.done ++ st.cur.toList

/-- Validation of one block: it yields a question exactly when it has an
ANSWER letter, its option count is between two and six, and the letter
names an existing option; the stored correct_answer is the uppercased
letter. -/
def validateBlock (b : RawBlock) : Option Question :=
  match b.answer with
  | none => none
  | some c =>
      if 2 ≤ b.optionLines.length ∧ b.optionLines.length ≤ 6
          ∧ letterIndex c < b.optionLines.length then
        some { question := b.questionText
               options := b.optionLines
               correct_answer := String.mk [c.toUpper] }
      else none

/-- parse_questions of server.py, modelled from the spec: the valid blocks
of the text, in order, each turned into a Question; invalid blocks are
dropped without aborting the rest. -/
def parse_questions (raw : String) : List Question :=
  (blocksOf raw).filterMap validateBlock

/-- The parser failure. -/
inductive ParseError where
  | noValidQuestions
deriving DecidableEq, Repr

/-- parse, modelled from the spec: fails with ParseError exactly when no
valid question blocks are found, otherwise returns the question list. -/
def parse (raw : String) : Except ParseError (List Question) :=
  let qs := parse_questions raw
  if qs.isEmpty then Except.error ParseError.noValidQuestions
  else Except.ok qs

/-- The keys of the recorded client answers object. -/
def answerKeys (ans : List (Nat × String)) : List Nat :=
  ans.map Prod.fst

/-- The answers object built by a sequence of handleAnswerChange calls
starting from the empty object; each operation is the pair of the index of
the question displayed at that moment and the chosen letter. -/
def recorded (ops : List (Nat × String)) : List (Nat × String) :=
  ops.foldl (fun acc p => setAnswer acc p.1 p.2) []

/-- submitTest (TakeTest.js lines 78 to 81): the entries of the answers
object, each mapped to an Answer record with question_index the key parsed
back to an integer and selected_answer the stored value. -/
def submitAnswersArray (ans : List (Nat × String)) : List Answer :=
  ans.map (fun p => { question_index := p.1, selected_answer := p.2 })

/-! ## Helper lemmas -/

/-- The scoring fold body is the entryCorrect test. -/
theorem scoreBody_eq (qs : List Question) :
    (fun (sc : Nat) (a : Answer) =>
      match qs.get? a.question_index with
      | some q =>
          if a.selected_answer.toUpper == q.correct_answer.toUpper then
            sc + 1
          else sc
      | none => sc)
    = fun (sc : Nat) (a : Answer) => if entryCorrect qs a then sc + 1 else sc := by
  funext sc a
  unfold entryCorrect
  cases qs.get? a.question_index <;> simp

/-- Counting fold as a filter length. -/
theorem foldl_count (p : Answer → Bool) (ans : List Answer) (n : Nat) :
    ans.foldl (fun sc a => if p a then sc + 1 else sc) n
      = n + (ans.filter p).length := by
  induction ans generalizing n with
  | nil => simp
  | cons a tl ih =>
      by_cases h : p a
      · simp [List.foldl_cons, List.filter_cons, h, ih]
        omega
      · simp [List.foldl_cons, List.filter_cons, h, ih]

/-- The score is the number of answer entries that match their question. -/
theorem scoreSubmission_eq_filter (qs : List Question) (ans : List Answer) :
    scoreSubmission qs ans = (ans.filter (entryCorrect qs)).length := by
  unfold scoreSubmission
  rw [scoreBody_eq, foldl_count]
  omega

/-- The student answers map keeps its accumulator over entries whose index
differs from the looked-up one. -/
theorem studentAnswersMap_acc (ans : List Answer) (i : Nat) :
    ∀ (acc : Option String), (∀ a ∈ ans, a.question_index ≠ i) →
      ans.foldl
          (fun acc a =>
            if a.question_index = i then some a.selected_answer else acc)
          acc = acc := by
  induction ans with
  | nil => intro acc h; rfl
  | cons a tl ih =>
      intro acc h
      simp only [List.foldl_cons]
      rw [if_neg (h a (List.mem_cons_self a tl))]
      exact ih acc (fun b hb => h b (List.mem_cons_of_mem a hb))

/-- An index with no entry resolves to none in the student answers map. -/
theorem studentAnswersMap_eq_none (ans : List Answer) (i : Nat)
    (h : ∀ a ∈ ans, a.question_index ≠ i) :
    studentAnswersMap ans i = none :=
  studentAnswersMap_acc ans i none h

/-- Overwriting an existing key leaves the key list unchanged. -/
theorem answerKeys_overwrite (ans : List (Nat × String)) (i : Nat)
    (v : String) :
    (ans.map (fun p => if p.1 == i then (i, v) else p)).map Prod.fst
      = ans.map Prod.fst := by
  rw [List.map_map]
  apply List.map_congr_left
  intro p _
  by_cases hpi : p.1 = i
  · simp [hpi]
  · simp [hpi]

/-- Key membership after one setAnswer. -/
theorem mem_answerKeys_setAnswer (ans : List (Nat × String)) (i j : Nat)
    (v : String) :
    j ∈ answerKeys (setAnswer ans i v) ↔ j ∈ answerKeys ans ∨ j = i := by
  unfold setAnswer answerKeys
  by_cases h : ans.any (fun p => p.1 == i)
  · rw [if_pos h, answerKeys_overwrite]
    constructor
    · exact Or.inl
    · rintro (hj | rfl)
      · exact hj
      · rcases List.any_eq_true.mp h with ⟨p, hp, hpi⟩
        exact List.mem_map.mpr ⟨p, hp, by simpa using hpi⟩
  · rw [if_neg h, List.map_append]
    simp

/-- setAnswer keeps the keys without repetition. -/
theorem nodup_answerKeys_setAnswer (ans : List (Nat × String)) (i : Nat)
    (v : String) (h : (answerKeys ans).Nodup) :
    (answerKeys (setAnswer ans i v)).Nodup := by
  unfold setAnswer answerKeys at *
  by_cases hc : ans.any (fun p => p.1 == i)
  · rw [if_pos hc, answerKeys_overwrite]
    exact h
  · rw [if_neg hc, List.map_append]
    have hni : i ∉ ans.map Prod.fst := by
      intro hmem
      rcases List.mem_map.mp hmem with ⟨p, hp, hpi⟩
      have hany : ans.any (fun p => p.1 == i) = true := by
        rw [List.any_eq_true]
        exact ⟨p, hp, by simpa using hpi⟩
      exact hc hany
    refine List.Nodup.append h (List.nodup_singleton i) ?_
    intro x hx hx2
    rw [List.mem_singleton.mp hx2] at hx
    exact hni hx

/-- Value membership after one setAnswer. -/
theorem mem_values_setAnswer (ans : List (Nat × String)) (i : Nat)
    (v x : String) (h : x ∈ (setAnswer ans i v).map Prod.snd) :
    x ∈ ans.map Prod.snd ∨ x = v := by
  unfold setAnswer at h
  by_cases hc : ans.any (fun p => p.1 == i)
  · rw [if_pos hc, List.map_map] at h
    rcases List.mem_map.mp h with ⟨p, hp, hpx⟩
    by_cases hpi : p.1 = i
    · right
      simp [hpi] at hpx
      exact hpx.symm
    · left
      simp [hpi] at hpx
      exact List.mem_map.mpr ⟨p, hp, hpx⟩
  · rw [if_neg hc, List.map_append] at h
    rcases List.mem_append.mp h with h1 | h2
    · exact Or.inl h1
    · right
      simpa using h2

/-- Key membership in the answers object built by a sequence of
handleAnswerChange operations. -/
theorem mem_answerKeys_recorded_acc (ops : List (Nat × String)) :
    ∀ (acc : List (Nat × String)) (i : Nat),
      (i ∈ answerKeys (ops.foldl (fun a p => setAnswer a p.1 p.2) acc) ↔
        i ∈ answerKeys acc ∨ i ∈ ops.map Prod.fst) := by
  induction ops with
  | nil => intro acc i; simp
  | cons p tl ih =>
      intro acc i
      simp only [List.foldl_cons, List.map_cons, List.mem_cons]
      rw [ih, mem_answerKeys_setAnswer]
      tauto

/-- The keys of the built answers object are without repetition. -/
theorem nodup_answerKeys_recorded_acc (ops : List (Nat × String)) :
    ∀ (acc : List (Nat × String)), (answerKeys acc).Nodup →
      (answerKeys (ops.foldl (fun a p => setAnswer a p.1 p.2) acc)).Nodup := by
  induction ops with
  | nil => intro acc h; exact h
  | cons p tl ih =>
      intro acc h
      simp only [List.foldl_cons]
      exact ih _ (nodup_answerKeys_setAnswer acc p.1 p.2 h)

/-- Every value of the built answers object was the value of some
operation. -/
theorem mem_values_recorded_acc (ops : List (Nat × String)) :
    ∀ (acc : List (Nat × String)) (x : String),
      x ∈ (ops.foldl (fun a p => setAnswer a p.1 p.2) acc).map Prod.snd →
      x ∈ acc.map Prod.snd ∨ x ∈ ops.map Prod.snd := by
  induction ops with
  | nil => intro acc x h; exact Or.inl h
  | cons p tl ih =>
      intro acc x h
      simp only [List.foldl_cons] at h
      rcases ih _ x h with h1 | h2
      · rcases mem_values_setAnswer acc p.1 p.2 x h1 with h3 | h4
        · exact Or.inl h3
        · right
          simp [h4]
      · right
        simp only [List.map_cons, List.mem_cons]
        exact Or.inr h2

/-- The question indices of the submitted payload are the keys of the
answers object. -/
theorem submitAnswersArray_indices (ans : List (Nat × String)) :
    (submitAnswersArray ans).map Answer.question_index = answerKeys ans := by
  unfold submitAnswersArray answerKeys
  rw [List.map_map]
  rfl

/-- The selected answers of the submitted payload are the values of the
answers object. -/
theorem submitAnswersArray_values (ans : List (Nat × String)) :
    (submitAnswersArray ans).map Answer.selected_answer = ans.map Prod.snd := by
  unfold submitAnswersArray
  rw [List.map_map]
  rfl

/-! ## Claim theorems -/

/-- C1: every question delivered to a student by getTest carries no
correct_answer field and the payload is independent of prior submission
state; the TakeTest question view reads only the question text and the
options, so two tests that differ only in their correct_answer fields
deliver identical payloads and render identically. -/
theorem C1_student_redaction_noninterference (t1 t2 : Test) (b1 b2 : Bool)
    (h : t1.questions.map redactQuestion = t2.questions.map redactQuestion) :
    getTestStudent t1 b1 = getTestStudent t2 b2 ∧
    getTestStudent t1 b1 = getTestStudent t1 b2 ∧
    getTestStudent t1 b1 = t1.questions.map redactQuestion ∧
    t1.questions.map renderTakeTestQuestion
      = t2.questions.map renderTakeTestQuestion := by
  refine ⟨h, rfl, rfl, ?_⟩
  have hsplit : ∀ (l : List Question),
      l.map renderTakeTestQuestion
        = (l.map redactQuestion).map renderRedactedQuestion := by
    intro l
    rw [List.map_map]
    rfl
  rw [hsplit, hsplit, h]

/-- Witness for C1 at two one-question tests that differ only in the
correct answer letter. -/
theorem C1_student_redaction_noninterference_witness :
    getTestStudent
        { title := "T", description := "D", duration_minutes := 1
          questions := [{ question := "q", options := ["o1", "o2"]
                          correct_answer := "A" }] } true
      = getTestStudent
        { title := "T", description := "D", duration_minutes := 1
          questions := [{ question := "q", options := ["o1", "o2"]
                          correct_answer := "B" }] } false ∧
    getTestStudent
        { title := "T", description := "D", duration_minutes := 1
          questions := [{ question := "q", options := ["o1", "o2"]
                          correct_answer := "A" }] } true
      = getTestStudent
        { title := "T", description := "D", duration_minutes := 1
          questions := [{ question := "q", options := ["o1", "o2"]
                          correct_answer := "A" }] } false ∧
    getTestStudent
        { title := "T", description := "D", duration_minutes := 1
          questions := [{ question := "q", options := ["o1", "o2"]
                          correct_answer := "A" }] } true
      = [{ question := "q", options := ["o1", "o2"] }] ∧
    [({ question := "q", options := ["o1", "o2"]
        correct_answer := "A" } : Question)].map renderTakeTestQuestion
      = [({ question := "q", options := ["o1", "o2"]
            correct_answer := "B" } : Question)].map renderTakeTestQuestion :=
  C1_student_redaction_noninterference
    { title := "T", description := "D", duration_minutes := 1
      questions := [{ question := "q", options := ["o1", "o2"]
                      correct_answer := "A" }] }
    { title := "T", description := "D", duration_minutes := 1
      questions := [{ question := "q", options := ["o1", "o2"]
                      correct_answer := "B" }] }
    true false rfl

set_option maxRecDepth 4000 in
/-- C2: on the trace where the student opens the submit confirmation
dialog, the timer then runs down to zero firing the auto submit, and the
student then clicks the Submit Test action of the still-open dialog, the
component issues two submission calls: handleConfirmSubmit calls
submitTest without checking the in-flight submitting flag, so the
exactly-once guarantee fails. -/
theorem C2_double_submission_on_confirm_after_timeout :
    (runEvents 1 (initState 1)
        (TakeTestEvent.submitButtonClick ::
          (List.replicate 60 TakeTestEvent.tick ++
            [TakeTestEvent.confirmSubmitClick]))).submitCount = 2 := by
  rfl

/-- C3: answer matching is case-insensitive both in scoring and in the
review page: a selected answer counts as correct exactly when it equals
the correct answer up to letter case. -/
theorem C3_case_insensitive_matching (sel : String) (q : Question)
    (qs : List Question) (i : Nat) (h : qs.get? i = some q) :
    reviewIsCorrect (some sel) q = (sel.toUpper == q.correct_answer.toUpper) ∧
    (reviewIsCorrect (some sel) q = true ↔
      sel.toUpper = q.correct_answer.toUpper) ∧
    scoreSubmission qs [{ question_index := i, selected_answer := sel }]
      = (if sel.toUpper == q.correct_answer.toUpper then 1 else 0) := by
  refine ⟨rfl, ?_, ?_⟩
  · simp [reviewIsCorrect]
  · have h2 : qs[i]? = some q := by
      rw [← List.get?_eq_getElem?]
      exact h
    unfold scoreSubmission
    simp [h2]

/-- Witness for C3: the lowercase selection b matches the stored correct
answer B. -/
theorem C3_case_insensitive_matching_witness :
    reviewIsCorrect (some "b")
        { question := "x", options := ["three", "four"], correct_answer := "B" }
      = ("b".toUpper == "B".toUpper) ∧
    (reviewIsCorrect (some "b")
        { question := "x", options := ["three", "four"], correct_answer := "B" }
      = true ↔ "b".toUpper = "B".toUpper) ∧
    scoreSubmission
        [{ question := "x", options := ["three", "four"],
           correct_answer := "B" }]
        [{ question_index := 0, selected_answer := "b" }]
      = (if "b".toUpper == "B".toUpper then 1 else 0) :=
  C3_case_insensitive_matching "b"
    { question := "x", options := ["three", "four"], correct_answer := "B" }
    [{ question := "x", options := ["three", "four"], correct_answer := "B" }]
    0 rfl

/-- C4: a question index with no entry in the answers sequence is never
counted as correct and never causes an error: its review lookup is none,
the review marks it incorrect and shows the unanswered notice, the score
counts only matching entries (none of which concerns that index), and an
empty answers sequence scores 0. -/
theorem C4_unanswered_counts_incorrect (qs : List Question)
    (answers : List Answer) (i : Nat) (q : Question)
    (h : ∀ a ∈ answers, a.question_index ≠ i) :
    studentAnswersMap answers i = none ∧
    reviewIsCorrect (studentAnswersMap answers i) q = false ∧
    unansweredNotice (studentAnswersMap answers i) = true ∧
    scoreSubmission qs answers = (answers.filter (entryCorrect qs)).length ∧
    (∀ a ∈ answers.filter (entryCorrect qs), a.question_index ≠ i) ∧
    scoreSubmission qs [] = 0 := by
  have hm : studentAnswersMap answers i = none :=
    studentAnswersMap_eq_none answers i h
  refine ⟨hm, ?_, ?_, scoreSubmission_eq_filter qs answers, ?_, rfl⟩
  · rw [hm]
    rfl
  · rw [hm]
    rfl
  · intro a ha
    exact h a (List.mem_of_mem_filter ha)

/-- Witness for C4 at a one-entry submission with no entry for question
index 1. -/
theorem C4_unanswered_counts_incorrect_witness :
    studentAnswersMap [{ question_index := 0, selected_answer := "A" }] 1
      = none ∧
    reviewIsCorrect
        (studentAnswersMap [{ question_index := 0, selected_answer := "A" }] 1)
        { question := "y", options := ["u", "v"], correct_answer := "A" }
      = false ∧
    unansweredNotice
        (studentAnswersMap [{ question_index := 0, selected_answer := "A" }] 1)
      = true ∧
    scoreSubmission
        [{ question := "y", options := ["u", "v"], correct_answer := "A" }]
        [{ question_index := 0, selected_answer := "A" }]
      = (List.filter
          (entryCorrect
            [{ question := "y", options := ["u", "v"], correct_answer := "A" }])
          [{ question_index := 0, selected_answer := "A" }]).length ∧
    (∀ a ∈ List.filter
        (entryCorrect
          [{ question := "y", options := ["u", "v"], correct_answer := "A" }])
        [{ question_index := 0, selected_answer := "A" }],
      a.question_index ≠ 1) ∧
    scoreSubmission
        [{ question := "y", options := ["u", "v"], correct_answer := "A" }] []
      = 0 :=
  C4_unanswered_counts_incorrect
    [{ question := "y", options := ["u", "v"], correct_answer := "A" }]
    [{ question_index := 0, selected_answer := "A" }] 1
    { question := "y", options := ["u", "v"], correct_answer := "A" }
    (by decide)

/-- C5: the countdown is seeded to exactly duration_minutes times 60
seconds; while positive, each tick decreases it by exactly 1; it never
goes below zero; and once it is zero a tick changes nothing because the
interval is not scheduled. -/
theorem C5_timer_seed_and_tick (d : Nat) (s : TakeTestState) :
    (initState d).timeLeft = (d : Int) * 60 ∧
    (1 ≤ s.timeLeft → (tickStep s).timeLeft = s.timeLeft - 1) ∧
    (0 ≤ s.timeLeft → 0 ≤ (tickStep s).timeLeft) ∧
    (s.timeLeft = 0 → tickStep s = s) := by
  refine ⟨rfl, ?_, ?_, ?_⟩
  · intro h
    unfold tickStep
    rw [if_neg (by omega)]
    by_cases h1 : s.timeLeft ≤ 1
    · rw [if_pos h1]
      show (0 : Int) = s.timeLeft - 1
      omega
    · rw [if_neg h1]
  · intro h
    unfold tickStep
    by_cases h0 : s.timeLeft ≤ 0
    · rw [if_pos h0]
      exact h
    · rw [if_neg h0]
      by_cases h1 : s.timeLeft ≤ 1
      · rw [if_pos h1]
      · rw [if_neg h1]
        show (0 : Int) ≤ s.timeLeft - 1
        omega
  · intro h
    unfold tickStep
    rw [if_pos (by omega)]

/-- Witness for C5 at duration 2 and a state with 5 seconds left. -/
theorem C5_timer_seed_and_tick_witness :
    (initState 2).timeLeft = (2 : Int) * 60 ∧
    (1 ≤ (5 : Int) →
      (tickStep
        { currentQuestionIndex := 0, answers := [], timeLeft := 5
          submitting := false, submitDialogOpen := false
          submitCount := 0 }).timeLeft = 5 - 1) ∧
    (0 ≤ (5 : Int) →
      0 ≤ (tickStep
        { currentQuestionIndex := 0, answers := [], timeLeft := 5
          submitting := false, submitDialogOpen := false
          submitCount := 0 }).timeLeft) ∧
    ((5 : Int) = 0 →
      tickStep
          { currentQuestionIndex := 0, answers := [], timeLeft := 5
            submitting := false, submitDialogOpen := false
            submitCount := 0 }
        = { currentQuestionIndex := 0, answers := [], timeLeft := 5
            submitting := false, submitDialogOpen := false
            submitCount := 0 }) :=
  C5_timer_seed_and_tick 2
    { currentQuestionIndex := 0, answers := [], timeLeft := 5
      submitting := false, submitDialogOpen := false, submitCount := 0 }

/-- C6: the submitted payload has exactly one entry per answered question
index and none for unanswered indices; each entry's question_index is the
integer index the answer was recorded under, and each selected_answer is
one of the option letters chosen through the radio group. -/
theorem C6_submit_payload_shape (ops : List (Nat × String)) (i : Nat)
    (h : ∀ p ∈ ops, p.2 ∈ optionLetters) :
    ((submitAnswersArray (recorded ops)).map Answer.question_index).Nodup ∧
    (i ∈ (submitAnswersArray (recorded ops)).map Answer.question_index ↔
      i ∈ ops.map Prod.fst) ∧
    (∀ a ∈ submitAnswersArray (recorded ops),
      a.selected_answer ∈ optionLetters) := by
  refine ⟨?_, ?_, ?_⟩
  · rw [submitAnswersArray_indices]
    exact nodup_answerKeys_recorded_acc ops [] List.nodup_nil
  · rw [submitAnswersArray_indices]
    unfold recorded
    rw [mem_answerKeys_recorded_acc]
    simp [answerKeys]
  · intro a ha
    have hv : a.selected_answer ∈ (recorded ops).map Prod.snd := by
      rcases List.mem_map.mp ha with ⟨p, hp, hpa⟩
      exact List.mem_map.mpr ⟨p, hp, by rw [← hpa]⟩
    rcases mem_values_recorded_acc ops [] a.selected_answer hv with h1 | h2
    · simp at h1
    · rcases List.mem_map.mp h2 with ⟨p, hp, hpv⟩
      rw [← hpv]
      exact h p hp

/-- Witness for C6 at the operation sequence answering question 0 with A
and question 1 with B, then changing question 0 to C. -/
theorem C6_submit_payload_shape_witness :
    ((submitAnswersArray (recorded [(0, "A"), (1, "B"), (0, "C")])).map
        Answer.question_index).Nodup ∧
    (1 ∈ (submitAnswersArray (recorded [(0, "A"), (1, "B"), (0, "C")])).map
        Answer.question_index ↔
      1 ∈ ([(0, "A"), (1, "B"), (0, "C")] : List (Nat × String)).map
        Prod.fst) ∧
    (∀ a ∈ submitAnswersArray (recorded [(0, "A"), (1, "B"), (0, "C")]),
      a.selected_answer ∈ optionLetters) :=
  C6_submit_payload_shape [(0, "A"), (1, "B"), (0, "C")] 1 (by decide)

/-- C7: Next and Previous only move the displayed question index, staying
within bounds; the recorded answers, the remaining time and the submission
state are untouched. -/
theorem C7_navigation_frame (numQuestions : Nat) (s : TakeTestState)
    (h : s.currentQuestionIndex < numQuestions) :
    (handleNext numQuestions s).answers = s.answers ∧
    (handleNext numQuestions s).timeLeft = s.timeLeft ∧
    (handleNext numQuestions s).submitting = s.submitting ∧
    (handleNext numQuestions s).submitCount = s.submitCount ∧
    (handlePrevious s).answers = s.answers ∧
    (handlePrevious s).timeLeft = s.timeLeft ∧
    (handlePrevious s).submitting = s.submitting ∧
    (handlePrevious s).submitCount = s.submitCount ∧
    (handleNext numQuestions s).currentQuestionIndex < numQuestions ∧
    (handlePrevious s).currentQuestionIndex < numQuestions ∧
    (handleNext numQuestions s).currentQuestionIndex
      = (if s.currentQuestionIndex < numQuestions - 1 then
          s.currentQuestionIndex + 1
        else s.currentQuestionIndex) ∧
    (handlePrevious s).currentQuestionIndex
      = (if 0 < s.currentQuestionIndex then s.currentQuestionIndex - 1
        else s.currentQuestionIndex) := by
  unfold handleNext handlePrevious
  by_cases h1 : s.currentQuestionIndex < numQuestions - 1 <;>
    by_cases h2 : 0 < s.currentQuestionIndex <;>
    simp [h1, h2] <;>
    omega

/-- Witness for C7 at index 1 of a three-question test. -/
theorem C7_navigation_frame_witness :
    (handleNext 3
        { currentQuestionIndex := 1, answers := [(0, "A")], timeLeft := 9
          submitting := false, submitDialogOpen := false
          submitCount := 0 }).answers = [(0, "A")] ∧
    (handleNext 3
        { currentQuestionIndex := 1, answers := [(0, "A")], timeLeft := 9
          submitting := false, submitDialogOpen := false
          submitCount := 0 }).timeLeft = 9 ∧
    (handleNext 3
        { currentQuestionIndex := 1, answers := [(0, "A")], timeLeft := 9
          submitting := false, submitDialogOpen := false
          submitCount := 0 }).currentQuestionIndex < 3 ∧
    (handlePrevious
        { currentQuestionIndex := 1, answers := [(0, "A")], timeLeft := 9
          submitting := false, submitDialogOpen := false
          submitCount := 0 }).currentQuestionIndex < 3 := by
  have h := C7_navigation_frame 3
    { currentQuestionIndex := 1, answers := [(0, "A")], timeLeft := 9
      submitting := false, submitDialogOpen := false, submitCount := 0 }
    (by decide)
  exact ⟨h.1, h.2.1, h.2.2.2.2.2.2.2.2.1, h.2.2.2.2.2.2.2.2.2.1⟩

/-- C8: a block whose option count is outside two to six or that lacks an
ANSWER line yields no question and its removal leaves the other blocks
untouched (the parse of the remaining blocks is not aborted); parse fails
with ParseError exactly when the resulting question sequence is empty. -/
theorem C8_parser_robustness (raw : String) (pre post : List RawBlock)
    (b : RawBlock)
    (hb : b.optionLines.length < 2 ∨ 6 < b.optionLines.length
      ∨ b.answer = none) :
    validateBlock b = none ∧
    (pre ++ b :: post).filterMap validateBlock
      = (pre ++ post).filterMap validateBlock ∧
    parse_questions raw = (blocksOf raw).filterMap validateBlock ∧
    (parse raw = Except.error ParseError.noValidQuestions ↔
      parse_questions raw = []) := by
  have hv : validateBlock b = none := by
    unfold validateBlock
    cases hba : b.answer with
    | none => rfl
    | some c =>
        have hcond : ¬(2 ≤ b.optionLines.length ∧ b.optionLines.length ≤ 6
            ∧ letterIndex c < b.optionLines.length) := by
          rcases hb with h1 | h2 | h3
          · rintro ⟨ha2, -, -⟩
            omega
          · rintro ⟨-, hb2, -⟩
            omega
          · rw [hba] at h3
            exact Option.noConfusion h3
        simp [hcond]
  refine ⟨hv, ?_, rfl, ?_⟩
  · simp [List.filterMap_append, List.filterMap_cons, hv]
  · constructor
    · intro h
      unfold parse at h
      by_cases he : (parse_questions raw).isEmpty
      · exact List.isEmpty_iff.mp he
      · rw [if_neg he] at h
        exact Except.noConfusion h
    · intro h
      unfold parse
      rw [if_pos (by simp [h])]

/-- Witness for C8 at a one-option block next to a valid block, with an
input text holding no question block. -/
theorem C8_parser_robustness_witness :
    validateBlock
        { questionText := "bad", optionLines := ["x"], answer := some 'A' }
      = none ∧
    (([] : List RawBlock) ++
        ({ questionText := "bad", optionLines := ["x"],
           answer := some 'A' } : RawBlock) ::
        [({ questionText := "good", optionLines := ["x", "y"],
            answer := some 'B' } : RawBlock)]).filterMap validateBlock
      = (([] : List RawBlock) ++
          [({ questionText := "good", optionLines := ["x", "y"],
              answer := some 'B' } : RawBlock)]).filterMap validateBlock ∧
    parse_questions "hello" = (blocksOf "hello").filterMap validateBlock ∧
    (parse "hello" = Except.error ParseError.noValidQuestions ↔
      parse_questions "hello" = []) :=
  C8_parser_robustness "hello" []
    [{ questionText := "good", optionLines := ["x", "y"],
       answer := some 'B' }]
    { questionText := "bad", optionLines := ["x"], answer := some 'A' }
    (by decide)

/-- C9: a failed test load and a failed result load each toast a failure
notification, navigate back, leave no payload in state, and render the
not-found placeholder rather than any test or result screen, so no partial
test is ever rendered. -/
theorem C9_load_failure_behavior :
    (fetchTestOutcome (Except.error ())).toastedError = true ∧
    (fetchTestOutcome (Except.error ())).navigatedBack = true ∧
    (fetchTestOutcome (Except.error ())).test = none ∧
    renderTakeTest (fetchTestOutcome (Except.error ()))
      = TakeTestRender.testNotFound ∧
    (renderTakeTest (fetchTestOutcome (Except.error ()))).isTestScreen
      = false ∧
    (fetchResultOutcome (Except.error ())).toastedError = true ∧
    (fetchResultOutcome (Except.error ())).navigatedBack = true ∧
    (fetchResultOutcome (Except.error ())).result = none ∧
    renderTestResult (fetchResultOutcome (Except.error ()))
      = ResultRender.resultNotFound ∧
    (renderTestResult (fetchResultOutcome (Except.error ()))).isResultScreen
      = false :=
  ⟨rfl, rfl, rfl, rfl, rfl, rfl, rfl, rfl, rfl, rfl⟩

/-- C10: the student results list, the detailed result page and the
teacher submissions dialog compute the identical rounded percentage for
the same submission. -/
theorem C10_percentage_agreement (score total_questions : Nat)
    (_h : 0 < total_questions) :
    myTestResultsPercentage score total_questions
      = testResultPercentage score total_questions ∧
    testResultPercentage score total_questions
      = testSubmissionsDialogPercentage score total_questions ∧
    myTestResultsPercentage score total_questions
      = jsRound ((score : ℚ) / (total_questions : ℚ) * 100) :=
  ⟨rfl, rfl, rfl⟩

/-- Witness for C10 at one correct answer out of two questions. -/
theorem C10_percentage_agreement_witness :
    myTestResultsPercentage 1 2 = testResultPercentage 1 2 ∧
    testResultPercentage 1 2 = testSubmissionsDialogPercentage 1 2 ∧
    myTestResultsPercentage 1 2
      = jsRound (((1 : Nat) : ℚ) / ((2 : Nat) : ℚ) * 100) :=
  C10_percentage_agreement 1 2 (by decide)
